import Mathlib

/-!
Verification of the session-manager component in
src/src/contexts/AuthContext.tsx.

The component is embedded shallowly: the browser-visible mutable state
(localStorage keys, the axios default Authorization header, and the React
state variables) becomes one record, and each operation becomes a pure
function from that record and the outcomes of its HTTP calls to a new
record.  JavaScript truthiness of strings and the stringification of null
inside template literals are modelled explicitly.  HTTP errors pass through
the global response interceptor before reaching an operation's catch block,
exactly as axios delivers them.
-/

namespace AuthCtx

/-- JS truthiness of a nullable string: null and the empty string are falsy. -/
def truthyStr : Option String → Bool
  | none => false
  | some s => s != ""

/-- JS logical-or on nullable strings: returns the first operand when it is
truthy, otherwise the second operand. -/
def jsOr (a b : Option String) : Option String :=
  if truthyStr a then a else b

/-- JS template-literal interpolation of a nullable string: null prints as
the four characters "null". -/
def interp : Option String → String
  | none => "null"
  | some s => s

/-- Whether the first character list starts the second. -/
def charsStart : List Char → List Char → Bool
  | [], _ => true
  | _ :: _, [] => false
  | a :: as, b :: bs => a == b && charsStart as bs

/-- Whether the first character list occurs contiguously in the second. -/
def charsContain (sub : List Char) : List Char → Bool
  | [] => charsStart sub []
  | b :: bs => charsStart sub (b :: bs) || charsContain sub bs

/-- JS String.prototype.includes, as substring containment. -/
def strIncludes (s sub : String) : Bool :=
  charsContain sub.toList s.toList

/-- User record returned by the login and check-auth endpoints. -/
structure User where
  id : Int
  name : String
  email : String
  role : String
  full_name : Option String := none
  api_token : Option String := none
deriving DecidableEq

/-- Profile record returned by the profile endpoint. -/
structure Profile where
  id : Int
  name : String
  email : String
  role : String
  full_name : String
deriving DecidableEq

/-- The component's entire mutable state: the three localStorage keys, the
axios default Authorization header, and the four React state variables. -/
structure AuthState where
  admin_token : Option String
  token_key : Option String
  user_key : Option User
  authHeader : Option String
  user : Option User
  profile : Option Profile
  loading : Bool
  isAuthenticated : Bool
deriving DecidableEq

/-- getToken: localStorage.getItem("admin_token") || localStorage.getItem("token"). -/
def getToken (st : AuthState) : Option String :=
  jsOr st.admin_token st.token_key

/-- setToken: writes both storage keys and the axios default header. -/
def setToken (st : AuthState) (t : String) : AuthState :=
  { st with
    admin_token := some t
    token_key := some t
    authHeader := some ("Bearer " ++ t) }

/-- removeToken: removes both token keys and the stored user, and deletes
the axios default Authorization header. -/
def removeToken (st : AuthState) : AuthState :=
  { st with
    admin_token := none
    token_key := none
    user_key := none
    authHeader := none }

/-- An outgoing axios request config, as seen by the request interceptor:
whether config.headers exists, and its Authorization entry. -/
structure ReqConfig where
  hasHeaders : Bool
  authorization : Option String
deriving DecidableEq

/-- The request interceptor: reads the stored token and, when it is truthy
and the config has a headers object, writes it as a bearer Authorization
header on the config. -/
def requestInterceptor (st : AuthState) (cfg : ReqConfig) : ReqConfig :=
  let token := getToken st
  if truthyStr token && cfg.hasHeaders then
    { cfg with authorization := some ("Bearer " ++ interp token) }
  else cfg

/-- The response interceptor's error handler: on error.response?.status
equal to 401 it removes the token and resets the in-memory session, then
re-rejects; any other error passes through untouched.  status = none means
the error carried no HTTP response (network failure). -/
def responseInterceptorError (st : AuthState) (status : Option Nat) : AuthState :=
  if status = some 401 then
    { removeToken st with
      user := none
      profile := none
      isAuthenticated := false }
  else st

/-- Outcome of one HTTP call: a parsed success body, or an error carrying
the HTTP status when a response arrived (none for a transport failure). -/
inductive HttpResult (α : Type) where
  | ok (data : α)
  | err (status : Option Nat)
deriving DecidableEq

/-- Body of the login endpoint's 2xx response. -/
structure LoginResponse where
  success : Option Bool := none
  token : Option String := none
  user : Option User := none
  message : Option String := none
deriving DecidableEq

/-- Body of the check-auth endpoint's 2xx response. -/
structure CheckAuthResponse where
  authenticated : Bool
  user : Option User
deriving DecidableEq

/-- Body of the profile endpoint's 2xx response. -/
structure ProfileResponse where
  success : Bool
  data : Option Profile
deriving DecidableEq

/-- One guarded profile fetch, shared verbatim by checkAuth, signIn and
refreshProfile: on a 2xx body with success and data it overwrites the
profile; an error first passes the response interceptor (401 clears the
session) and is then swallowed by the surrounding catch. -/
def applyProfileFetch (st : AuthState) (r : HttpResult ProfileResponse) : AuthState :=
  match r with
  | .ok pr =>
      if pr.success && pr.data.isSome then { st with profile := pr.data } else st
  | .err status => responseInterceptorError st status

/-- The finally block shared by checkAuth's exits: setLoading(false). -/
def clearLoading (st : AuthState) : AuthState :=
  { st with loading := false }

/-- checkAuth: with no truthy stored token it only clears loading and the
authenticated flag.  Otherwise it sets the default header from the stored
token, calls check-auth, and on an affirmative body with a user populates
user and the flag and best-effort fetches the profile; on a negative body
or any error it removes the token and clears the session.  loading is
cleared in the finally block on every path. -/
def checkAuth (st : AuthState) (checkR : HttpResult CheckAuthResponse)
    (profR : HttpResult ProfileResponse) : AuthState :=
  let token := getToken st
  if !truthyStr token then
    { st with loading := false, isAuthenticated := false }
  else
    let st1 := { st with authHeader := some ("Bearer " ++ interp token) }
    clearLoading
      (match checkR with
      | .ok d =>
          if d.authenticated && d.user.isSome then
            applyProfileFetch
              { st1 with user := d.user, isAuthenticated := true } profR
          else
            { removeToken st1 with
              user := none, profile := none, isAuthenticated := false }
      | .err status =>
          { removeToken (responseInterceptorError st1 status) with
            user := none, profile := none, isAuthenticated := false })

/-- refreshProfile: exactly one guarded profile fetch. -/
def refreshProfile (st : AuthState) (r : HttpResult ProfileResponse) : AuthState :=
  applyProfileFetch st r

/-- signOut: POSTs to the logout endpoint (an error passes the response
interceptor and is swallowed); the finally block then removes the token and
clears the in-memory session unconditionally. -/
def signOut (st : AuthState) (r : HttpResult Unit) : AuthState :=
  let st1 :=
    match r with
    | .ok _ => st
    | .err status => responseInterceptorError st status
  { removeToken st1 with
    user := none
    profile := none
    isAuthenticated := false }

/-- Token extraction in signIn: a truthy top-level token field, else a
truthy user.api_token.  (The success === true branch only logs and never
yields a token.) -/
def extractToken (d : LoginResponse) : Option String :=
  if truthyStr d.token then d.token
  else
    match d.user with
    | some u => if truthyStr u.api_token then u.api_token else none
    | none => none

/-- JSON.stringify on a login body, used only to build the diagnostic
suffix of the no-token error message. -/
def stringifyLogin (d : LoginResponse) : String :=
  let optStr : Option String → String := fun o =>
    match o with
    | none => "null"
    | some s => "\x22" ++ s ++ "\x22"
  "\x7b" ++ "success: " ++ (match d.success with
      | none => "null"
      | some b => toString b)
    ++ ", token: " ++ optStr d.token
    ++ ", user: " ++ (match d.user with
      | none => "null"
      | some u => "\x7b" ++ "id: " ++ toString u.id ++ "\x7d")
    ++ ", message: " ++ optStr d.message ++ "\x7d"

/-- The backend-payload suffix appended to the no-token message: present
only when the caught error exposes a truthy error.response?.data. -/
def backendSuffix : Option LoginResponse → String
  | none => ""
  | some d => " Backend responded with: " ++ stringifyLogin d

/-- The message an axios rejection carries. -/
def axiosErrMessage (status : Option Nat) : String :=
  match status with
  | some s => "Request failed with status code " ++ toString s
  | none => "Network Error"

/-- signIn's catch block: classifies the caught error into the user-facing
message it re-throws, from the error's message, its response status and its
response body. -/
def classifySignInError (message : String) (status : Option Nat)
    (data : Option LoginResponse) : String :=
  if status = some 401 then "Invalid email or password"
  else if status = some 500 then "Server error - please try again later"
  else if truthyStr (data.bind LoginResponse.message) then
    interp (data.bind LoginResponse.message)
  else if strIncludes message "no token" then
    "Login failed - no token in response." ++ backendSuffix data
  else if strIncludes message "Network Error" then
    "Cannot connect to server. Check your internet connection."
  else "Login failed. Please try again."

/-- Outcome of the login POST: a 2xx body, or a rejection with an optional
status and an optional response body (both absent on transport failure). -/
inductive LoginOutcome where
  | ok (data : LoginResponse)
  | err (status : Option Nat) (data : Option LoginResponse)
deriving DecidableEq

/-- Result of signIn: the final state, and the message of the re-thrown
error when signIn failed (none on success). -/
structure SignInResult where
  state : AuthState
  error : Option String
deriving DecidableEq

/-- signIn up to but excluding the optional profile fetch: saves and
deletes the default header, POSTs credentials, extracts a token, persists
it with the user record (synthesizing a placeholder user when the body has
none), and sets the authenticated flag; on any failure it restores the
saved header when truthy and re-throws the classified error.  A rejected
login POST passes the response interceptor before the catch runs; the
locally thrown no-token Error carries no response field. -/
def signInMain (st : AuthState) (email : String) (login : LoginOutcome) :
    SignInResult :=
  let originalAuthHeader := st.authHeader
  let st1 := { st with authHeader := none }
  match login with
  | .err status data =>
      let st2 := responseInterceptorError st1 status
      let st3 := if truthyStr originalAuthHeader
        then { st2 with authHeader := originalAuthHeader } else st2
      { state := st3
        error := some (classifySignInError (axiosErrMessage status) status data) }
  | .ok d =>
      match extractToken d with
      | none =>
          let st3 := if truthyStr originalAuthHeader
            then { st1 with authHeader := originalAuthHeader } else st1
          { state := st3
            error := some (classifySignInError
              "Login failed - no token in response" none none) }
      | some tok =>
          let st2 := setToken st1 tok
          let userData := d.user.getD
            { id := 1, name := "Admin", email := email, role := "admin" }
          { state := { st2 with
              user_key := some userData
              user := some userData
              isAuthenticated := true }
            error := none }

/-- Full signIn: the main body followed, on success only, by the
best-effort profile fetch. -/
def signIn (st : AuthState) (email : String) (login : LoginOutcome)
    (profR : HttpResult ProfileResponse) : SignInResult :=
  let r := signInMain st email login
  match r.error with
  | none => { r with state := applyProfileFetch r.state profR }
  | some _ => r

/-- A header map as produced by the standalone helpers. -/
structure HeaderMap where
  contentType : String
  authorization : String
deriving DecidableEq

/-- getAuthHeaders: re-reads both storage keys and always builds an
Authorization entry by interpolating the (possibly null) token. -/
def getAuthHeaders (st : AuthState) : HeaderMap :=
  let token := jsOr st.admin_token st.token_key
  { contentType := "application/json"
    authorization := "Bearer " ++ interp token }

/-- The axios request config returned by getAuthAxiosConfig. -/
structure AxiosConfig where
  headers : HeaderMap
deriving DecidableEq

/-- getAuthAxiosConfig: same header construction wrapped in a config. -/
def getAuthAxiosConfig (st : AuthState) : AxiosConfig :=
  let token := jsOr st.admin_token st.token_key
  { headers :=
    { authorization := "Bearer " ++ interp token
      contentType := "application/json" } }

/-- The caller-supplied options.headers of authFetch, spread last over the
two defaults. -/
structure FetchHeaderOverrides where
  contentType : Option String := none
  authorization : Option String := none
deriving DecidableEq

/-- The headers authFetch passes to fetch: the two defaults, with
options.headers spread over them. -/
def authFetchHeaders (st : AuthState) (o : FetchHeaderOverrides) : HeaderMap :=
  let token := jsOr st.admin_token st.token_key
  { contentType := o.contentType.getD "application/json"
    authorization := o.authorization.getD ("Bearer " ++ interp token) }

/-- The spec's session invariant: an authenticated state holds a truthy
token in storage and a truthy default Authorization header. -/
def Inv (st : AuthState) : Prop :=
  st.isAuthenticated = true →
    truthyStr (getToken st) = true ∧ truthyStr st.authHeader = true

/-- A signed-in state: token stored under both keys, default header set. -/
def stAuthed : AuthState :=
  { admin_token := some "tok"
    token_key := some "tok"
    user_key := none
    authHeader := some "Bearer tok"
    user := none
    profile := none
    loading := false
    isAuthenticated := true }

/-- A fresh unauthenticated state with empty storage. -/
def stFresh : AuthState :=
  { admin_token := none
    token_key := none
    user_key := none
    authHeader := none
    user := none
    profile := none
    loading := true
    isAuthenticated := false }

/-- C1: a 401 on any request resets the session and empties both token
keys. -/
theorem response_401_clears_session (st : AuthState) (status : Option Nat)
    (h : status = some 401) :
    (responseInterceptorError st status).user = none ∧
    (responseInterceptorError st status).profile = none ∧
    (responseInterceptorError st status).isAuthenticated = false ∧
    (responseInterceptorError st status).admin_token = none ∧
    (responseInterceptorError st status).token_key = none := by
  subst h
  simp [responseInterceptorError, removeToken]

theorem response_401_clears_session_witness :
    (responseInterceptorError stAuthed (some 401)).user = none ∧
    (responseInterceptorError stAuthed (some 401)).profile = none ∧
    (responseInterceptorError stAuthed (some 401)).isAuthenticated = false ∧
    (responseInterceptorError stAuthed (some 401)).admin_token = none ∧
    (responseInterceptorError stAuthed (some 401)).token_key = none :=
  response_401_clears_session stAuthed (some 401) rfl

/-- C7: signOut clears token storage, the default header and all in-memory
session state, whatever the logout call's outcome. -/
theorem signOut_clears_everything (st : AuthState) (r : HttpResult Unit) :
    (signOut st r).admin_token = none ∧
    (signOut st r).token_key = none ∧
    (signOut st r).user_key = none ∧
    (signOut st r).authHeader = none ∧
    (signOut st r).user = none ∧
    (signOut st r).profile = none ∧
    (signOut st r).isAuthenticated = false := by
  cases r <;> simp [signOut, removeToken, responseInterceptorError]

/-- C9: an affirmative check-auth body without a user is treated as
failure: token removed from both keys, session fully cleared, identically
to a negative body. -/
theorem checkAuth_affirmative_without_user_clears (st : AuthState)
    (profR : HttpResult ProfileResponse)
    (hTok : truthyStr (getToken st) = true) :
    (checkAuth st (.ok { authenticated := true, user := none }) profR).admin_token
      = none ∧
    (checkAuth st (.ok { authenticated := true, user := none }) profR).token_key
      = none ∧
    (checkAuth st (.ok { authenticated := true, user := none }) profR).user
      = none ∧
    (checkAuth st (.ok { authenticated := true, user := none }) profR).profile
      = none ∧
    (checkAuth st (.ok { authenticated := true, user := none }) profR).isAuthenticated
      = false ∧
    checkAuth st (.ok { authenticated := true, user := none }) profR
      = checkAuth st (.ok { authenticated := false, user := none }) profR := by
  simp [checkAuth, hTok, removeToken, clearLoading]

theorem checkAuth_affirmative_without_user_clears_witness :
    (checkAuth stAuthed (.ok { authenticated := true, user := none })
        (.err none)).isAuthenticated = false :=
  (checkAuth_affirmative_without_user_clears stAuthed (.err none)
    (by decide)).2.2.2.2.1

/-- C10: with no token under either storage key, all three standalone
helpers still emit an Authorization header, whose value is the literal
string "Bearer null". -/
theorem helpers_emit_bearer_null (st : AuthState)
    (h1 : st.admin_token = none) (h2 : st.token_key = none) :
    (getAuthHeaders st).authorization = "Bearer null" ∧
    (getAuthAxiosConfig st).headers.authorization = "Bearer null" ∧
    (authFetchHeaders st {}).authorization = "Bearer null" := by
  simp [getAuthHeaders, getAuthAxiosConfig, authFetchHeaders, jsOr,
    truthyStr, interp, h1, h2]

theorem helpers_emit_bearer_null_witness :
    (getAuthHeaders stFresh).authorization = "Bearer null" :=
  (helpers_emit_bearer_null stFresh rfl rfl).1

/-- A request config whose caller already set an Authorization header. -/
def cfgCallerAuth : ReqConfig :=
  { hasHeaders := true, authorization := some "Bearer caller-set" }

/-- C2 counterexample: with a token in storage, the request interceptor
overwrites a caller-set Authorization header rather than leaving it
unchanged. -/
theorem requestInterceptor_overwrites_caller_header :
    cfgCallerAuth.authorization = some "Bearer caller-set" ∧
    stAuthed.admin_token = some "tok" ∧
    (requestInterceptor stAuthed cfgCallerAuth).authorization
      = some "Bearer tok" := by
  decide

/-- C2 amended: the interceptor writes the stored bearer token into the
request exactly when a truthy token is stored and the config has a headers
object, overwriting any caller-set Authorization; otherwise the config
passes through unchanged. -/
theorem requestInterceptor_injection_rule (st : AuthState) (cfg : ReqConfig) :
    (truthyStr (getToken st) = true → cfg.hasHeaders = true →
      (requestInterceptor st cfg).authorization
          = some ("Bearer " ++ interp (getToken st)) ∧
      (requestInterceptor st cfg).hasHeaders = cfg.hasHeaders) ∧
    (truthyStr (getToken st) = false ∨ cfg.hasHeaders = false →
      requestInterceptor st cfg = cfg) := by
  constructor
  · intro h1 h2
    simp [requestInterceptor, h1, h2]
  · rintro (h | h) <;> simp [requestInterceptor, h]

theorem requestInterceptor_injection_rule_witness :
    (requestInterceptor stAuthed
        { hasHeaders := true, authorization := none }).authorization
      = some ("Bearer " ++ interp (getToken stAuthed)) :=
  ((requestInterceptor_injection_rule stAuthed
      { hasHeaders := true, authorization := none }).1 (by decide) rfl).1

/-- A state with a stored token and header but the flag off. -/
def stAuthedOff : AuthState :=
  { stAuthed with isAuthenticated := false }

/-- C5: a 2xx login body with neither a top-level token nor a nested
user.api_token makes signIn throw the no-token error; the authenticated
flag stays false, no storage key is mutated, and a truthy saved default
header is restored (none stays none). -/
theorem signIn_no_token_fails_cleanly (st : AuthState) (email : String)
    (d : LoginResponse) (profR : HttpResult ProfileResponse)
    (hA : st.isAuthenticated = false)
    (hTok : d.token = none)
    (hUser : ∀ u, d.user = some u → u.api_token = none) :
    (signIn st email (.ok d) profR).error
      = some "Login failed - no token in response." ∧
    (signIn st email (.ok d) profR).state.isAuthenticated = false ∧
    (signIn st email (.ok d) profR).state.admin_token = st.admin_token ∧
    (signIn st email (.ok d) profR).state.token_key = st.token_key ∧
    (signIn st email (.ok d) profR).state.user_key = st.user_key ∧
    (truthyStr st.authHeader = true →
      (signIn st email (.ok d) profR).state.authHeader = st.authHeader) ∧
    (st.authHeader = none →
      (signIn st email (.ok d) profR).state.authHeader = none) := by
  have hext : extractToken d = none := by
    unfold extractToken
    cases hd : d.user with
    | none => simp [hTok, truthyStr]
    | some u => simp [hTok, truthyStr, hUser u hd]
  have hclass : classifySignInError "Login failed - no token in response"
      none none = "Login failed - no token in response." := by decide
  unfold signIn signInMain
  simp only [hext, hclass]
  by_cases hh : truthyStr st.authHeader = true <;>
    simp [hh, hA]

theorem signIn_no_token_fails_cleanly_witness :
    (signIn stAuthedOff "e" (.ok { success := some true })
        (.err none)).error = some "Login failed - no token in response." ∧
    (signIn stAuthedOff "e" (.ok { success := some true })
        (.err none)).state.authHeader = some "Bearer tok" := by
  have h := signIn_no_token_fails_cleanly stAuthedOff "e"
    { success := some true } (.err none) rfl rfl (fun u hu => by cases hu)
  exact ⟨h.1, h.2.2.2.2.2.1 (by decide)⟩

/-- C6 failing input: a 200 login body of success only.  The surfaced
no-token message is exactly the bare string: the locally thrown Error has
no response field, so the diagnostic backend-payload suffix is always
empty. -/
theorem signIn_no_token_error_has_no_payload :
    (signIn stFresh "e" (.ok { success := some true }) (.err none)).error
      = some "Login failed - no token in response." ∧
    strIncludes "Login failed - no token in response."
      "Backend responded with" = false := by
  decide

/-- User record carrying a nested api_token. -/
def userNested : User :=
  { id := 2, name := "Nested", email := "n@x.com", role := "admin"
    api_token := some "nested-tok" }

/-- Login body whose top-level token field holds the empty string. -/
def dEmptyTok : LoginResponse :=
  { token := some "", user := some userNested }

/-- Login body with a truthy top-level token. -/
def dGoodTok : LoginResponse :=
  { token := some "tok1"
    user := some { id := 3, name := "U", email := "u@x.com", role := "admin" } }

/-- A profile fetch that does not fail with 401 changes no field except
possibly the profile. -/
theorem applyProfileFetch_frame (st : AuthState)
    (r : HttpResult ProfileResponse) (h : r ≠ .err (some 401)) :
    (applyProfileFetch st r).admin_token = st.admin_token ∧
    (applyProfileFetch st r).token_key = st.token_key ∧
    (applyProfileFetch st r).user_key = st.user_key ∧
    (applyProfileFetch st r).authHeader = st.authHeader ∧
    (applyProfileFetch st r).user = st.user ∧
    (applyProfileFetch st r).loading = st.loading ∧
    (applyProfileFetch st r).isAuthenticated = st.isAuthenticated := by
  cases r with
  | ok pr =>
      by_cases hc : (pr.success && pr.data.isSome) = true <;>
        simp [applyProfileFetch, hc]
  | err status =>
      have hs : ¬status = some 401 := by
        intro hs
        exact h (by rw [hs])
      simp [applyProfileFetch, responseInterceptorError, hs]

/-- Fields of the state signInMain builds when a token is extracted. -/
theorem signInMain_ok_fields (st : AuthState) (email : String)
    (d : LoginResponse) (t : String) (hext : extractToken d = some t) :
    (signInMain st email (.ok d)).error = none ∧
    (signInMain st email (.ok d)).state.admin_token = some t ∧
    (signInMain st email (.ok d)).state.token_key = some t ∧
    (signInMain st email (.ok d)).state.isAuthenticated = true := by
  simp [signInMain, hext, setToken]

/-- On the token path, signIn is signInMain followed by the guarded
profile fetch. -/
theorem signIn_ok_token (st : AuthState) (email : String) (d : LoginResponse)
    (profR : HttpResult ProfileResponse) (t : String)
    (hext : extractToken d = some t) :
    signIn st email (.ok d) profR
      = { state := applyProfileFetch (signInMain st email (.ok d)).state profR
          error := none } := by
  have herr := (signInMain_ok_fields st email d t hext).1
  unfold signIn
  simp only [herr]

/-- C4 counterexample: at a login body whose top-level token field holds
the empty string, signIn persists the nested user.api_token value, not the
top-level value; and with a truthy top-level token, a 401 from the
follow-up profile fetch leaves storage empty and the flag false. -/
theorem signIn_extraction_counterexample :
    dEmptyTok.token = some "" ∧
    (signIn stFresh "e" (.ok dEmptyTok) (.err none)).state.admin_token
      = some "nested-tok" ∧
    dGoodTok.token = some "tok1" ∧
    (signIn stFresh "e" (.ok dGoodTok) (.err (some 401))).state.isAuthenticated
      = false ∧
    (signIn stFresh "e" (.ok dGoodTok) (.err (some 401))).state.admin_token
      = none := by
  decide

/-- C4 amended: for a non-empty top-level token field exactly that value
is persisted under both keys and the flag is set; with no truthy top-level
token, a non-empty user.api_token is used instead — both provided the
follow-up profile fetch does not fail with 401, which would clear the
freshly stored session again. -/
theorem signIn_extraction_order (st : AuthState) (email : String)
    (d : LoginResponse) (profR : HttpResult ProfileResponse)
    (hProf : profR ≠ .err (some 401)) :
    (∀ t, d.token = some t → t ≠ "" →
      (signIn st email (.ok d) profR).state.admin_token = some t ∧
      (signIn st email (.ok d) profR).state.token_key = some t ∧
      (signIn st email (.ok d) profR).state.isAuthenticated = true) ∧
    (truthyStr d.token = false →
      ∀ u a, d.user = some u → u.api_token = some a → a ≠ "" →
        (signIn st email (.ok d) profR).state.admin_token = some a ∧
        (signIn st email (.ok d) profR).state.token_key = some a ∧
        (signIn st email (.ok d) profR).state.isAuthenticated = true) := by
  constructor
  · intro t ht htne
    have hext : extractToken d = some t := by
      unfold extractToken
      simp [ht, truthyStr, htne]
    have hfin := signIn_ok_token st email d profR t hext
    have hframe := applyProfileFetch_frame
      (signInMain st email (.ok d)).state profR hProf
    have hfields := signInMain_ok_fields st email d t hext
    rw [hfin]
    exact ⟨hframe.1.trans hfields.2.1, hframe.2.1.trans hfields.2.2.1,
      hframe.2.2.2.2.2.2.trans hfields.2.2.2⟩
  · intro hTokF u a hu ha hane
    have hext : extractToken d = some a := by
      unfold extractToken
      simp only [hTokF]
      simp [hu, ha, truthyStr, hane]
    have hfin := signIn_ok_token st email d profR a hext
    have hframe := applyProfileFetch_frame
      (signInMain st email (.ok d)).state profR hProf
    have hfields := signInMain_ok_fields st email d a hext
    rw [hfin]
    exact ⟨hframe.1.trans hfields.2.1, hframe.2.1.trans hfields.2.2.1,
      hframe.2.2.2.2.2.2.trans hfields.2.2.2⟩

theorem signIn_extraction_order_witness :
    (signIn stFresh "e" (.ok dGoodTok)
        (.ok { success := false, data := none })).state.admin_token
      = some "tok1" := by
  have h := ((signIn_extraction_order stFresh "e" dGoodTok
      (.ok { success := false, data := none }) (by decide)).1
    "tok1" rfl (by decide)).1
  exact h

/-- C8 counterexample: a 401 from the profile fetch inside refreshProfile
trips the global interceptor and turns the authenticated flag off. -/
theorem refreshProfile_401_changes_flag :
    stAuthed.isAuthenticated = true ∧
    (refreshProfile stAuthed (.err (some 401))).isAuthenticated = false := by
  decide

/-- C8 amended: apart from a 401 failure — which clears the whole session
through the global interceptor — refreshProfile never changes the
authenticated flag: a 2xx body with success and data overwrites only the
profile, and every other non-401 outcome leaves the state untouched. -/
theorem refreshProfile_frame (st : AuthState)
    (r : HttpResult ProfileResponse) :
    (∀ status, r = .err status → status ≠ some 401 →
      refreshProfile st r = st) ∧
    (∀ p, r = .ok p →
      (refreshProfile st r).isAuthenticated = st.isAuthenticated ∧
      (∀ q, p.success = true → p.data = some q →
        refreshProfile st r = { st with profile := some q }) ∧
      (p.success = false ∨ p.data = none → refreshProfile st r = st)) ∧
    (r = .err (some 401) →
      refreshProfile st r
        = { st with
            admin_token := none
            token_key := none
            user_key := none
            authHeader := none
            user := none
            profile := none
            isAuthenticated := false }) := by
  refine ⟨?_, ?_, ?_⟩
  · intro status hr hs
    subst hr
    simp [refreshProfile, applyProfileFetch, responseInterceptorError, hs]
  · intro p hr
    subst hr
    refine ⟨?_, ?_, ?_⟩
    · by_cases hc : (p.success && p.data.isSome) = true <;>
        simp [refreshProfile, applyProfileFetch, hc]
    · intro q hs hq
      simp [refreshProfile, applyProfileFetch, hs, hq]
    · rintro (hs | hq)
      · simp [refreshProfile, applyProfileFetch, hs]
      · simp [refreshProfile, applyProfileFetch, hq]
  · intro hr
    subst hr
    simp [refreshProfile, applyProfileFetch, responseInterceptorError,
      removeToken]

theorem refreshProfile_frame_witness :
    refreshProfile stAuthed (.err (some 500)) = stAuthed :=
  (refreshProfile_frame stAuthed (.err (some 500))).1 (some 500) rfl
    (by decide)

/-- A bearer-prefixed header value is truthy. -/
theorem truthyStr_bearer (t : String) :
    truthyStr (some ("Bearer " ++ t)) = true := by
  simp only [truthyStr, bne_iff_ne, ne_eq, decide_eq_true_eq]
  intro h
  have hd : ("Bearer " ++ t).data = "Bearer ".data ++ t.data := rfl
  rw [h] at hd
  simp at hd

/-- A token extracted by signIn passed a truthiness check, so it is not
the empty string. -/
theorem extractToken_truthy (d : LoginResponse) (t : String)
    (h : extractToken d = some t) : truthyStr (some t) = true := by
  unfold extractToken at h
  split at h
  · next hcond =>
      rw [h] at hcond
      exact hcond
  · split at h
    · split at h
      · next hcond =>
          rw [h] at hcond
          exact hcond
      · cases h
    · cases h

/-- The response interceptor's error handler preserves the invariant. -/
theorem inv_responseInterceptorError (st : AuthState) (status : Option Nat)
    (h : Inv st) : Inv (responseInterceptorError st status) := by
  unfold responseInterceptorError
  split
  · intro hA
    simp [removeToken] at hA
  · exact h

/-- The guarded profile fetch preserves the invariant. -/
theorem inv_applyProfileFetch (st : AuthState)
    (r : HttpResult ProfileResponse) (h : Inv st) :
    Inv (applyProfileFetch st r) := by
  cases r with
  | ok pr =>
      by_cases hc : (pr.success && pr.data.isSome) = true
      · simp only [applyProfileFetch, hc, if_true]
        exact h
      · simp only [applyProfileFetch, hc, if_false]
        exact h
  | err status => exact inv_responseInterceptorError st status h

/-- signOut preserves the invariant: it always ends unauthenticated. -/
theorem inv_signOut (st : AuthState) (r : HttpResult Unit) :
    Inv (signOut st r) := by
  intro hA
  cases r <;> simp [signOut] at hA

/-- checkAuth preserves the invariant. -/
theorem inv_checkAuth (st : AuthState) (checkR : HttpResult CheckAuthResponse)
    (profR : HttpResult ProfileResponse) (_h : Inv st) :
    Inv (checkAuth st checkR profR) := by
  by_cases htok : truthyStr (getToken st) = true
  · cases checkR with
    | err status2 =>
        have heq : checkAuth st (.err status2) profR
            = clearLoading
              { removeToken (responseInterceptorError
                  { st with
                    authHeader := some ("Bearer " ++ interp (getToken st)) }
                  status2) with
                user := none, profile := none, isAuthenticated := false } := by
          simp [checkAuth, htok]
        rw [heq]
        intro hA
        simp [clearLoading] at hA
    | ok dchk =>
        by_cases haff : (dchk.authenticated && dchk.user.isSome) = true
        · have heq : checkAuth st (.ok dchk) profR
              = clearLoading (applyProfileFetch
                { st with
                  authHeader := some ("Bearer " ++ interp (getToken st))
                  user := dchk.user
                  isAuthenticated := true } profR) := by
            simp [checkAuth, htok, haff]
          rw [heq]
          have hInvA :
              Inv { st with
                authHeader := some ("Bearer " ++ interp (getToken st))
                user := dchk.user
                isAuthenticated := true } :=
            fun _ => ⟨htok, truthyStr_bearer _⟩
          exact inv_applyProfileFetch _ profR hInvA
        · have heq : checkAuth st (.ok dchk) profR
              = clearLoading
                { removeToken
                    { st with
                      authHeader := some ("Bearer " ++ interp (getToken st)) }
                    with
                  user := none, profile := none, isAuthenticated := false } := by
            simp only [Bool.and_eq_true] at haff
            simp [checkAuth, htok, haff]
          rw [heq]
          intro hA
          simp [clearLoading] at hA
  · have htokF : truthyStr (getToken st) = false := by
      simpa using htok
    have heq : checkAuth st checkR profR
        = { st with loading := false, isAuthenticated := false } := by
      simp [checkAuth, htokF]
    rw [heq]
    intro hA
    simp at hA

/-- Both failure exits of signIn preserve the invariant, and the success
exit re-establishes it from the freshly stored token. -/
theorem inv_signIn (st : AuthState) (email : String) (login : LoginOutcome)
    (profR : HttpResult ProfileResponse) (h : Inv st) :
    Inv (signIn st email login profR).state := by
  cases login with
  | err status data =>
      unfold signIn signInMain
      simp only
      by_cases h401 : status = some 401
      · subst h401
        by_cases hh : truthyStr st.authHeader = true <;>
          · intro hA
            simp [responseInterceptorError, removeToken, hh] at hA
      · by_cases hh : truthyStr st.authHeader = true
        · simp only [responseInterceptorError, h401, if_false, hh, if_true]
          intro hA
          simp at hA
          exact ⟨(h hA).1, hh⟩
        · simp only [responseInterceptorError, h401, if_false, hh,
            Bool.false_eq_true]
          intro hA
          simp at hA
          have := (h hA).2
          exact absurd this hh
  | ok d =>
      cases hext : extractToken d with
      | none =>
          unfold signIn signInMain
          simp only [hext]
          by_cases hh : truthyStr st.authHeader = true
          · simp only [hh, if_true]
            intro hA
            simp at hA
            exact ⟨(h hA).1, hh⟩
          · simp only [hh, Bool.false_eq_true, if_false]
            intro hA
            simp at hA
            have := (h hA).2
            exact absurd this hh
      | some tok =>
          rw [signIn_ok_token st email d profR tok hext]
          have htt := extractToken_truthy d tok hext
          have hInvS : Inv (signInMain st email (.ok d)).state := by
            unfold signInMain
            simp only [hext]
            intro _
            refine ⟨?_, truthyStr_bearer tok⟩
            simp [getToken, setToken, jsOr, htt]
          exact inv_applyProfileFetch _ profR hInvS

/-- C3: the invariant "authenticated implies a token in storage and a set
default Authorization header" is preserved by signIn, signOut, checkAuth,
refreshProfile (each under every outcome of its HTTP calls) and by the
response interceptor's error step. -/
theorem session_invariant_preserved (st : AuthState) (h : Inv st)
    (email : String) (login : LoginOutcome)
    (profR profR2 profR3 : HttpResult ProfileResponse)
    (checkR : HttpResult CheckAuthResponse) (logoutR : HttpResult Unit)
    (status : Option Nat) :
    Inv (signIn st email login profR).state ∧
    Inv (signOut st logoutR) ∧
    Inv (checkAuth st checkR profR2) ∧
    Inv (refreshProfile st profR3) ∧
    Inv (responseInterceptorError st status) :=
  ⟨inv_signIn st email login profR h,
   inv_signOut st logoutR,
   inv_checkAuth st checkR profR2 h,
   inv_applyProfileFetch st profR3 h,
   inv_responseInterceptorError st status h⟩

theorem session_invariant_preserved_witness :
    Inv (signOut stAuthed (.ok ())) :=
  (session_invariant_preserved stAuthed (fun _ => ⟨by decide, by decide⟩)
    "e" (.ok dGoodTok)
    (.err none) (.err none) (.err none)
    (.ok { authenticated := true, user := none }) (.ok ()) none).2.1

end AuthCtx
